import Mathlib

/-!
Verification development for the KYC verification service.

The definitions below are shallow embeddings of the TypeScript sources:
* `src/utils/image.ts` (`normalizeImagePayload`),
* `src/utils/retry.ts` (`withRetry`),
* `src/workflows/innovatricsOrchestrationModule.ts` (`InnovatricsEventWorkflow.run`,
  `serializeResult`, `isRetryableError`, `toArray`, event constructors),
* `src/controllers/kycController.ts` (face-match resolution, liveness heuristic,
  decision policy of `KYCVerificationController.processKYCProfile`).

JavaScript numbers are modelled as `ℚ` for similarity scores (exact decimals,
written with `mkRat`) and as `Int` for millisecond delay quantities and `Date`
timestamps; `undefined`/non-string values as `Option`; thrown exceptions as
`Except`.
-/

namespace KYC

/-- Result shape of `normalizeImagePayload` (src/utils/image.ts): the base64 payload
and the optional declared mime type. -/
structure NormalizedImage where
  base64 : String
  mimeType : Option String
deriving DecidableEq, Repr

/-- Whitespace characters removed by JavaScript's `String.prototype.trim` (the
ASCII ones plus the no-break space; payloads in this repository are ASCII). -/
def jsIsWhitespace (c : Char) : Bool :=
  c = ' ' || c = '\t' || c = '\n' || c = '\r' ||
    c = Char.ofNat 0x0b || c = Char.ofNat 0x0c || c = Char.ofNat 0xa0

/-- Model of JavaScript `raw.trim()`: drop leading and trailing whitespace. -/
def jsTrim (s : String) : String :=
  String.mk (((s.toList.dropWhile jsIsWhitespace).reverse.dropWhile jsIsWhitespace).reverse)

/-- Split a character list at the first occurrence of `c`; the separator is dropped.
Returns `none` when `c` does not occur. -/
def splitAtFirst (c : Char) : List Char → Option (List Char × List Char)
  | [] => none
  | x :: xs =>
    if x = c then some ([], xs)
    else (splitAtFirst c xs).map (fun p => (x :: p.1, p.2))

/-- Characters matched by `.` in a JavaScript regex without the `s` flag
(anything except line terminators). -/
def jsDotMatches (c : Char) : Bool :=
  c ≠ '\n' && c ≠ '\r' && c ≠ Char.ofNat 0x2028 && c ≠ Char.ofNat 0x2029

/-- Whether the string starts with the literal `data:`. -/
def hasDataUriHead (s : String) : Bool :=
  s.toList.take 5 = "data:".toList

/-- Model of the regex `/^data:(?<mime>[^;]+);base64,(?<data>.+)$/` from
src/utils/image.ts.  `[^;]+` forces the match to stop at the first `;`; the
remainder must be exactly `base64,` followed by a non-empty run of `.`-matching
characters reaching the end of the string. -/
def dataUriMatch (s : String) : Option (String × String) :=
  if hasDataUriHead s then
    match splitAtFirst ';' (s.toList.drop 5) with
    | none => none
    | some (mime, rest) =>
      if mime ≠ [] ∧ rest.take 7 = "base64,".toList ∧
          rest.drop 7 ≠ [] ∧ (rest.drop 7).all jsDotMatches then
        some (String.mk mime, String.mk (rest.drop 7))
      else none
  else none

/-- The message of the `Error` thrown by `normalizeImagePayload`. -/
def imagePayloadError : String := "Image payload must be a non-empty string"

/-- Model of `normalizeImagePayload` (src/utils/image.ts lines 8-26).  The argument
`none` models a non-string (`undefined`/`null`) value; `some ""` the empty string
(both are falsy, hence rejected).  Otherwise the input is trimmed, matched once
against the data-URI regex, and returned. -/
def normalizeImagePayload : Option String → Except String NormalizedImage
  | none => .error imagePayloadError
  | some raw =>
    if raw = "" then .error imagePayloadError
    else
      match dataUriMatch (jsTrim raw) with
      | some (mime, data) => .ok ⟨data, some mime⟩
      | none => .ok ⟨jsTrim raw, none⟩

theorem dataUriMatch_none_of_no_head {s : String} (h : hasDataUriHead s = false) :
    dataUriMatch s = none := by
  unfold dataUriMatch
  simp [h]

deriving instance DecidableEq for Except

/-- C5 counterexample: `normalizeImagePayload` is not idempotent.  On the data-URI
input `data:a;base64,data:b;base64,Z` the first normalization returns the payload
`data:b;base64,Z` (mime `a`); normalizing that output again strips a further
data-URI header and returns payload `Z` (mime `b`), a different result. -/
theorem normalize_data_uri_not_idempotent_cx :
    normalizeImagePayload (some "data:a;base64,data:b;base64,Z") =
      .ok ⟨"data:b;base64,Z", some "a"⟩ ∧
    normalizeImagePayload (some "data:b;base64,Z") = .ok ⟨"Z", some "b"⟩ ∧
    normalizeImagePayload (some "data:b;base64,Z") ≠
      normalizeImagePayload (some "data:a;base64,data:b;base64,Z") := by
  decide

/-- C5 (amended): re-normalization is the identity exactly on bare payloads: if a
normalization produced no mime type (the input was not a data URI) and its payload
is a non-empty string fixed by trimming, then normalizing that payload again
returns the same `NormalizedImage`.  For data-URI inputs idempotence fails (see
the counterexample).  Normalizing the empty string or a non-string value throws
an `Error` with message `Image payload must be a non-empty string` (the code has
no `InvalidImageError` class). -/
theorem normalize_idempotent_on_bare_payloads :
    (∀ (x : String) (r : NormalizedImage),
        normalizeImagePayload (some x) = .ok r →
        r.mimeType = none →
        r.base64 ≠ "" →
        jsTrim r.base64 = r.base64 →
        normalizeImagePayload (some r.base64) = .ok r) ∧
    normalizeImagePayload (some "") = .error imagePayloadError ∧
    normalizeImagePayload none = .error imagePayloadError := by
  refine ⟨?_, by decide, by decide⟩
  rintro x ⟨rb, rm⟩ h hm hne ht
  simp only at hm
  subst hm
  simp only [normalizeImagePayload] at h ⊢
  by_cases hx : x = ""
  · rw [if_pos hx] at h
    exact absurd h (by simp)
  · rw [if_neg hx] at h
    cases hdu : dataUriMatch (jsTrim x) with
    | some p =>
        obtain ⟨m, d⟩ := p
        rw [hdu] at h
        simp at h
    | none =>
        rw [hdu] at h
        simp only [Except.ok.injEq, NormalizedImage.mk.injEq] at h
        obtain ⟨hb, -⟩ := h
        rw [if_neg hne, ht]
        dsimp only
        rw [← hb, hdu]

/-- C5 witness: the amended idempotence applied to the concrete bare payload
`QUJD`. -/
theorem normalize_idempotent_on_bare_payloads_witness :
    normalizeImagePayload (some "QUJD") = .ok ⟨"QUJD", none⟩ :=
  normalize_idempotent_on_bare_payloads.1 "QUJD" ⟨"QUJD", none⟩
    (by decide) rfl (by decide) (by decide)

/-- C6 counterexample: on input `base64, !!!` the code neither strips the leading
`base64,` marker, nor removes the internal whitespace, nor attempts (or fails) a
base64 decode: it returns the string unchanged as a successful payload, while the
claim requires iterative marker stripping, whitespace removal, and an
`InvalidImageError` on undecodable input. -/
theorem normalize_keeps_markers_cx :
    normalizeImagePayload (some "base64, !!!") = .ok ⟨"base64, !!!", none⟩ := by
  decide

/-- C6 (amended): `normalizeImagePayload` trims outer whitespace and matches a
single leading `data:<mime>;base64,<data>` header (no iterative stripping, no
internal-whitespace removal, no base64 decoding), returning the header's payload
on a match and the trimmed string otherwise; it throws exactly when the input is
a non-string value or the empty string. -/
theorem normalize_error_characterization :
    (∀ x : Option String,
        (∃ e, normalizeImagePayload x = .error e) ↔ (x = none ∨ x = some "")) ∧
    (∀ s : String, s ≠ "" → hasDataUriHead (jsTrim s) = false →
        normalizeImagePayload (some s) = .ok ⟨jsTrim s, none⟩) := by
  constructor
  · intro x
    cases x with
    | none => simp [normalizeImagePayload]
    | some s =>
      by_cases hs : s = ""
      · subst hs
        simp [normalizeImagePayload, imagePayloadError]
      · simp only [normalizeImagePayload, if_neg hs]
        cases hdu : dataUriMatch (jsTrim s) with
        | some p => obtain ⟨m, d⟩ := p; simp [hs]
        | none => simp [hs]
  · intro s hs hh
    simp only [normalizeImagePayload]
    rw [if_neg hs, dataUriMatch_none_of_no_head hh]

/-- C6 witness: the amended characterization applied to a concrete whitespace-
padded bare payload and to the empty string. -/
theorem normalize_error_characterization_witness :
    normalizeImagePayload (some " QUJD ") = .ok ⟨"QUJD", none⟩ ∧
    (∃ e, normalizeImagePayload (some "") = .error e) := by
  constructor
  · have h := normalize_error_characterization.2 " QUJD " (by decide) (by decide)
    rw [show jsTrim " QUJD " = "QUJD" from by decide] at h
    exact h
  · exact (normalize_error_characterization.1 (some "")).mpr (Or.inr rfl)

/-- A thrown JavaScript error as the retry machinery inspects it: the optional
HTTP status carried at `error.response.status`, plus the error message. -/
structure JsError where
  status : Option Nat := none
  msg : String := ""
deriving DecidableEq, Repr

/-- Options of `withRetry` (src/utils/retry.ts).  The numeric fields default to
the values of `defaultOptions`; `shouldRetry = none` models a caller that does
not supply a predicate.  Delay quantities are modelled as integers: every value
occurring in the repository (500, 4000, factor 2 and their products) is an
integral number of milliseconds. -/
structure RetryOptions where
  retries : Nat := 3
  delayMs : Int := 500
  maxDelayMs : Int := 4000
  backoffFactor : Int := 2
  shouldRetry : Option (JsError → Nat → Bool) := none

/-- One `onRetry` invocation: the `{ attempt, error, delayMs }` record that
`withRetry` passes to `options.onRetry` before sleeping. -/
structure RetryEvent where
  attempt : Nat
  delayMs : Int
  error : JsError
deriving DecidableEq, Repr

/-- The loop of `withRetry` (src/utils/retry.ts lines 33-49).  `op i` is what the
wrapped operation does on its `i`-th call (1-based); `i` is the attempt number
the next call will have after its failure increments `attempt`; `left` is the
number of retries still allowed, maintaining `left = retries + 1 - i` so that
`left = 0` is exactly the loop's `attempt > retries` exit; `d` is
`currentDelay`.  The returned list records the `onRetry` invocations in order. -/
def withRetryGo (op : Nat → Except JsError α) (o : RetryOptions) :
    Nat → Nat → Int → Except JsError α × List RetryEvent
  | i, 0, _ =>
    match op i with
    | .ok a => (.ok a, [])
    | .error e => (.error e, [])
  | i, left + 1, d =>
    match op i with
    | .ok a => (.ok a, [])
    | .error e =>
      let sr := match o.shouldRetry with
        | some p => p e i
        | none => decide (i ≤ o.retries)
      if sr then
        let next := withRetryGo op o (i + 1) left (min (d * o.backoffFactor) o.maxDelayMs)
        (next.1, ⟨i, d, e⟩ :: next.2)
      else
        (.error e, [])

/-- Model of `withRetry` (src/utils/retry.ts lines 21-50): run `op`, retrying per
the options; returns the final result (`.error` models the re-thrown exception)
and the recorded `onRetry` invocations. -/
def withRetry (op : Nat → Except JsError α) (o : RetryOptions) :
    Except JsError α × List RetryEvent :=
  withRetryGo op o 1 o.retries o.delayMs

/-- Model of `isRetryableError`
(src/workflows/innovatricsOrchestrationModule.ts lines 610-619).  A missing (or
`0`, which is falsy) status retries while `attempt <= 3`; a status that is 429
or at least 500 always retries; any other status does not. -/
def isRetryableError (e : JsError) (attempt : Nat) : Bool :=
  match e.status with
  | none => decide (attempt ≤ 3)
  | some 0 => decide (attempt ≤ 3)
  | some s => decide (500 ≤ s) || decide (s = 429)

/-- The delays and attempt numbers an `onRetry` trace must follow when the loop
starts at attempt `i` with current delay `d`: attempts are consecutive, each
event carries the delay current at its sleep, the wrapped operation really
failed at that attempt with the recorded error, and the next delay is
`min (d * backoffFactor) maxDelayMs`. -/
def RetryTraceChain (op : Nat → Except JsError α) (o : RetryOptions) :
    Nat → Int → List RetryEvent → Prop
  | _, _, [] => True
  | i, d, ev :: tr =>
    ev.attempt = i ∧ ev.delayMs = d ∧ op i = .error ev.error ∧
      RetryTraceChain op o (i + 1) (min (d * o.backoffFactor) o.maxDelayMs) tr

theorem withRetryGo_chain (op : Nat → Except JsError α) (o : RetryOptions) :
    ∀ (left i : Nat) (d : Int), RetryTraceChain op o i d (withRetryGo op o i left d).2 := by
  intro left
  induction left with
  | zero =>
    intro i d
    unfold withRetryGo
    cases op i <;> simp [RetryTraceChain]
  | succ n ih =>
    intro i d
    unfold withRetryGo
    cases hop : op i with
    | ok a => simp [RetryTraceChain]
    | error e =>
      dsimp only
      split
      · exact ⟨rfl, rfl, hop, ih (i + 1) (min (d * o.backoffFactor) o.maxDelayMs)⟩
      · simp [RetryTraceChain]

/-- Options as every wrapped call in the orchestration module supplies them:
defaults plus `shouldRetry := isRetryableError`. -/
def retryOptsWithPredicate : RetryOptions := { shouldRetry := some isRetryableError }

/-- C3 counterexample: with no `shouldRetry` supplied, `withRetry` retries an
HTTP 400 error like any other — the operation is attempted 4 times and `onRetry`
fires 3 times before the error propagates — whereas the claim says a 400 is not
retried and propagates after the first attempt. -/
theorem withRetry_default_retries_400_cx :
    withRetry (fun _ => (.error ⟨some 400, "Bad Request"⟩ : Except JsError Nat)) {} =
      (.error ⟨some 400, "Bad Request"⟩,
        [⟨1, 500, ⟨some 400, "Bad Request"⟩⟩,
         ⟨2, 1000, ⟨some 400, "Bad Request"⟩⟩,
         ⟨3, 2000, ⟨some 400, "Bad Request"⟩⟩]) := by
  decide

/-- C3 (amended): `withRetry` itself has no status-based default: when no
`shouldRetry` is supplied, every failing attempt is retried while
`attempt ≤ retries`, so with the default options any error — HTTP 400 included —
is attempted 4 times with 3 `onRetry` invocations before propagating.  The
status classification the claim describes (retry when the status is absent or
falsy — while `attempt ≤ 3` — or is 429 or ≥ 500; never on other 4xx) is the
`isRetryableError` predicate of the orchestration module, which every wrapped
call passes explicitly; under it an HTTP 400 error propagates on the first
attempt with no retry. -/
theorem withRetry_default_vs_isRetryableError :
    (∀ (e : JsError) (op : Nat → Except JsError Nat),
        (∀ i, op i = .error e) →
        withRetry op {} = (.error e, [⟨1, 500, e⟩, ⟨2, 1000, e⟩, ⟨3, 2000, e⟩])) ∧
    (∀ (e : JsError) (op : Nat → Except JsError Nat),
        e.status = some 400 → op 1 = .error e →
        withRetry op retryOptsWithPredicate = (.error e, [])) := by
  constructor
  · intro e op hop
    simp [withRetry, withRetryGo, hop]
  · intro e op he hop
    simp [withRetry, retryOptsWithPredicate, withRetryGo, hop, isRetryableError, he]

/-- C3 witness: the amended statement applied to a concrete always-400 operation
under both option sets. -/
theorem withRetry_default_vs_isRetryableError_witness :
    withRetry (fun _ => (.error ⟨some 400, ""⟩ : Except JsError Nat)) {} =
      (.error ⟨some 400, ""⟩,
        [⟨1, 500, ⟨some 400, ""⟩⟩, ⟨2, 1000, ⟨some 400, ""⟩⟩, ⟨3, 2000, ⟨some 400, ""⟩⟩]) ∧
    withRetry (fun _ => (.error ⟨some 400, ""⟩ : Except JsError Nat)) retryOptsWithPredicate =
      (.error ⟨some 400, ""⟩, []) :=
  ⟨withRetry_default_vs_isRetryableError.1 ⟨some 400, ""⟩ _ (fun _ => rfl),
   withRetry_default_vs_isRetryableError.2 ⟨some 400, ""⟩ _ rfl rfl⟩

/-- C7 (confirmed): backoff discipline.  First part: every `onRetry` trace obeys
`RetryTraceChain` — `onRetry` is invoked before each sleep with the current
attempt number, current delay and the error of that attempt, attempts are
consecutive, and each successive delay is `min (previous * backoffFactor)
maxDelayMs`.  Second part: for an operation failing twice with HTTP 503 and then
succeeding, `withRetry` under `isRetryableError` returns the 3rd attempt's
success and invokes `onRetry` exactly twice, with delays 500 then 1000 —
strictly increasing and related by the configured backoff factor 2. -/
theorem withRetry_backoff_discipline :
    (∀ (op : Nat → Except JsError Nat) (o : RetryOptions),
        RetryTraceChain op o 1 o.delayMs (withRetry op o).2) ∧
    (∀ (op : Nat → Except JsError Nat) (e1 e2 : JsError),
        e1.status = some 503 → e2.status = some 503 →
        op 1 = .error e1 → op 2 = .error e2 → op 3 = .ok 200 →
        withRetry op retryOptsWithPredicate = (.ok 200, [⟨1, 500, e1⟩, ⟨2, 1000, e2⟩]) ∧
        (500 : Int) < 1000 ∧
        (1000 : Int) = 500 * retryOptsWithPredicate.backoffFactor) := by
  constructor
  · intro op o
    exact withRetryGo_chain op o o.retries 1 o.delayMs
  · intro op e1 e2 h1 h2 hop1 hop2 hop3
    refine ⟨?_, by norm_num, by norm_num [retryOptsWithPredicate]⟩
    simp [withRetry, retryOptsWithPredicate, withRetryGo, hop1, hop2, hop3,
      isRetryableError, h1, h2]

/-- C7 witness: the 503-503-200 scenario at a concrete operation. -/
theorem withRetry_backoff_discipline_witness :
    withRetry (fun i => if i ≤ 1 then .error ⟨some 503, ""⟩
        else if i ≤ 2 then .error ⟨some 503, ""⟩ else (.ok 200 : Except JsError Nat))
      retryOptsWithPredicate =
        (.ok 200, [⟨1, 500, ⟨some 503, ""⟩⟩, ⟨2, 1000, ⟨some 503, ""⟩⟩]) :=
  (withRetry_backoff_discipline.2 _ ⟨some 503, ""⟩ ⟨some 503, ""⟩
    rfl rfl rfl rfl rfl).1

/-! ## Controller (src/controllers/kycController.ts) -/

/-- ASCII lowering of one character, the fragment of
`String.prototype.toLowerCase` relevant to the status strings involved. -/
def asciiToLower (c : Char) : Char :=
  if 'A' ≤ c ∧ c ≤ 'Z' then Char.ofNat (c.toNat + 32) else c

/-- Model of JavaScript `s.toLowerCase()` on ASCII strings. -/
def jsToLower (s : String) : String :=
  String.mk (s.toList.map asciiToLower)

/-- The `selfieInspection` sub-block of a customer inspection as the liveness
step reads it.  `hasMask = none` models an absent field (falsy under `|| false`). -/
structure SelfieInspectionBlock where
  hasMask : Option Bool := none
  faceQuality : Option String := none
deriving DecidableEq, Repr

/-- The `documentPortraitComparison` sub-block; `score = some q` models the field
being present and a JS number (`typeof score === 'number'`). -/
structure PortraitComparison where
  score : Option ℚ := none
deriving DecidableEq, Repr

/-- The fields of the `/customers/{id}/inspect` response the controller reads. -/
structure CustomerInspection where
  documentPortraitComparison : Option PortraitComparison := none
  selfieInspection : Option SelfieInspectionBlock := none
deriving DecidableEq, Repr

/-- `FACE_MATCH_SUCCESS_THRESHOLD` (kycController.ts line 28). -/
def FACE_MATCH_SUCCESS_THRESHOLD : ℚ := mkRat 64 100

/-- `LIVENESS_SUCCESS_STATUS` (kycController.ts line 29). -/
def LIVENESS_SUCCESS_STATUS : String := "live"

/-- The `livenessResult` record built at kycController.ts lines 644-652. -/
structure LivenessEvaluation where
  status : String
  confidence : ℚ
  method : String
  hasMask : Bool
  faceQuality : String
deriving DecidableEq, Repr

/-- `inspectionForLiveness?.selfieInspection?.hasMask || false`
(kycController.ts lines 639-640): any absent link, or a present `false`, is
falsy. -/
def inspectionHasMask (insp : Option CustomerInspection) : Bool :=
  ((insp.bind (·.selfieInspection)).bind (·.hasMask)).getD false

/-- Model of the liveness step (kycController.ts lines 635-657): status is
`not_live` with confidence 0 when a mask was reported, else `live` with the
fixed heuristic confidence 0.85; `faceQuality` falls back to `unknown` when
absent or empty (`|| 'unknown'`). -/
def livenessStep (insp : Option CustomerInspection) : LivenessEvaluation :=
  let hasMask := inspectionHasMask insp
  let faceQuality :=
    match (insp.bind (·.selfieInspection)).bind (·.faceQuality) with
    | some q => if q = "" then "unknown" else q
    | none => "unknown"
  { status := if hasMask then "not_live" else "live"
    confidence := if hasMask then 0 else mkRat 17 20
    method := "inspection_based"
    hasMask := hasMask
    faceQuality := faceQuality }

/-- C8 (confirmed): for every inspection value reaching the liveness step, the
status is `live` unless the selfie-quality block reports `hasMask = true`, in
which case it is `not_live` with confidence 0; with no mask the confidence is
the fixed heuristic 0.85. -/
theorem liveness_heuristic_spec (insp : Option CustomerInspection) :
    ((livenessStep insp).status = "live" ↔
      ¬ (insp.bind (·.selfieInspection)).bind (·.hasMask) = some true) ∧
    ((insp.bind (·.selfieInspection)).bind (·.hasMask) = some true →
      (livenessStep insp).status = "not_live" ∧ (livenessStep insp).confidence = 0) ∧
    (¬ (insp.bind (·.selfieInspection)).bind (·.hasMask) = some true →
      (livenessStep insp).status = "live" ∧
        (livenessStep insp).confidence = mkRat 17 20) := by
  cases hm : (insp.bind (·.selfieInspection)).bind (·.hasMask) with
  | none =>
      simp [livenessStep, inspectionHasMask, hm]
  | some b =>
      cases b <;> simp [livenessStep, inspectionHasMask, hm]

/-- C8 witness: concrete inspections with and without a reported mask. -/
theorem liveness_heuristic_spec_witness :
    (livenessStep (some { selfieInspection := some { hasMask := some true } })).status =
        "not_live" ∧
    (livenessStep (some { selfieInspection := some { hasMask := some true } })).confidence = 0 ∧
    (livenessStep none).status = "live" :=
  ⟨((liveness_heuristic_spec
      (some { selfieInspection := some { hasMask := some true } })).2.1 rfl).1,
   ((liveness_heuristic_spec
      (some { selfieInspection := some { hasMask := some true } })).2.1 rfl).2,
   ((liveness_heuristic_spec none).2.2 (by decide)).1⟩

/-- The `overallStatus` lifecycle values (shared by the controller's
`KYCVerificationResult` and the workflow module's `VerificationFlowResult`). -/
inductive OverallStatus
  | pending
  | in_progress
  | completed
  | failed
deriving DecidableEq, Repr

/-- `declineReasons.join('|')`: JavaScript `Array.prototype.join` with `|`. -/
def joinBar : List String → String
  | [] => ""
  | [x] => x
  | x :: xs => x ++ "|" ++ joinBar xs

/-- What the decision step (kycController.ts lines 675-752) does to the run:
the final `overallStatus` and `updatedAt`, the decline reason list and the
`e`-tag reason of the declined event (when declining), whether the external
identifier was re-linked with onboarding status `FINISHED`, and the kind and
HTTP status of the emitted event. -/
structure DecisionOutcome where
  overallStatus : OverallStatus
  updatedAt : Int
  declineReasons : List String
  declineReasonTag : Option String
  storeFinishedCalled : Bool
  httpStatus : Nat
  eventKind : Nat
deriving DecidableEq, Repr

/-- Model of the decision policy (kycController.ts lines 675-752).
`faceMatchPassed = faceMatchScore >= FACE_MATCH_SUCCESS_THRESHOLD` (the score is
a number at this point, line 594 has already thrown otherwise);
`livenessPassed = status.toLowerCase() === 'live'`.  On decline the reasons are
pushed in the order face-match then liveness, joined with `|` (with fallback tag
`kyc_failed` for an empty join), status becomes `failed` and a kind-1984 event
is returned with HTTP 422.  On pass the status becomes `completed`, the external
identifier is re-linked with `FINISHED`, and a kind-3 event is returned with
HTTP 200. -/
def decisionStep (faceMatchScore : ℚ) (lr : LivenessEvaluation) (now : Int) :
    DecisionOutcome :=
  let faceMatchPassed := FACE_MATCH_SUCCESS_THRESHOLD ≤ faceMatchScore
  let normalizedLivenessStatus := jsToLower lr.status
  let livenessPassed := normalizedLivenessStatus = LIVENESS_SUCCESS_STATUS
  if ¬ faceMatchPassed ∨ ¬ livenessPassed then
    let declineReasons :=
      (if ¬ faceMatchPassed then ["face_match_failed"] else []) ++
        (if ¬ livenessPassed then ["liveness_failed"] else [])
    let joined := joinBar declineReasons
    let declineReasonTag := if joined = "" then "kyc_failed" else joined
    { overallStatus := .failed
      updatedAt := now
      declineReasons := declineReasons
      declineReasonTag := some declineReasonTag
      storeFinishedCalled := false
      httpStatus := 422
      eventKind := 1984 }
  else
    { overallStatus := .completed
      updatedAt := now
      declineReasons := []
      declineReasonTag := none
      storeFinishedCalled := true
      httpStatus := 200
      eventKind := 3 }

/-- C1 (confirmed): for every run reaching the decision step (its liveness
result always comes from `livenessStep`), the run is finalized `completed`
exactly when the face-match score is at least 0.64 and the liveness status is
`live`; otherwise it is finalized `failed` with `updatedAt` set and a decline
tag that is the `|`-join of exactly the failed gates' reasons; on success the
external identifier is re-linked with status `FINISHED` via a kind-3 event. -/
theorem decision_policy_spec (score : ℚ) (insp : Option CustomerInspection) (now : Int) :
    ((decisionStep score (livenessStep insp) now).overallStatus = .completed ↔
      (FACE_MATCH_SUCCESS_THRESHOLD ≤ score ∧ (livenessStep insp).status = "live")) ∧
    ((decisionStep score (livenessStep insp) now).overallStatus = .completed ∨
      (decisionStep score (livenessStep insp) now).overallStatus = .failed) ∧
    ((decisionStep score (livenessStep insp) now).overallStatus = .failed →
      (decisionStep score (livenessStep insp) now).updatedAt = now ∧
      ("face_match_failed" ∈ (decisionStep score (livenessStep insp) now).declineReasons ↔
        score < FACE_MATCH_SUCCESS_THRESHOLD) ∧
      ("liveness_failed" ∈ (decisionStep score (livenessStep insp) now).declineReasons ↔
        (livenessStep insp).status ≠ "live") ∧
      (decisionStep score (livenessStep insp) now).declineReasonTag =
        some (joinBar (decisionStep score (livenessStep insp) now).declineReasons) ∧
      (decisionStep score (livenessStep insp) now).storeFinishedCalled = false ∧
      (decisionStep score (livenessStep insp) now).eventKind = 1984) ∧
    ((decisionStep score (livenessStep insp) now).overallStatus = .completed →
      (decisionStep score (livenessStep insp) now).updatedAt = now ∧
      (decisionStep score (livenessStep insp) now).storeFinishedCalled = true ∧
      (decisionStep score (livenessStep insp) now).eventKind = 3) := by
  have hlive : jsToLower "live" = "live" := by decide
  have hnlive : jsToLower "not_live" = "not_live" := by decide
  have hne : ("not_live" : String) ≠ "live" := by decide
  by_cases hs : FACE_MATCH_SUCCESS_THRESHOLD ≤ score <;>
    cases hm : inspectionHasMask insp <;>
      simp [decisionStep, livenessStep, hm, hs, hlive, hnlive, hne,
        LIVENESS_SUCCESS_STATUS, joinBar, ← not_le]

/-- C1 witness: a passing score with a mask-free inspection completes the run. -/
theorem decision_policy_spec_witness :
    (decisionStep (mkRat 9 10) (livenessStep none) 0).overallStatus = .completed ∧
    (decisionStep (mkRat 9 10) (livenessStep none) 0).storeFinishedCalled = true :=
  ⟨(decision_policy_spec (mkRat 9 10) none 0).1.mpr ⟨by decide, by decide⟩,
   ((decision_policy_spec (mkRat 9 10) none 0).2.2.2
      ((decision_policy_spec (mkRat 9 10) none 0).1.mpr ⟨by decide, by decide⟩)).2.1⟩

/-- The strategy recorded in `results.faceComparison.strategy`. -/
inductive FaceMatchStrategy
  | inspection
  | manual
deriving DecidableEq, Repr

/-- The face-comparison outcome the controller stores: the final score, the
strategy used, and the `faceMatchScores` list collected along the way. -/
structure FaceMatchOutcome where
  score : ℚ
  strategy : FaceMatchStrategy
  allScores : List ℚ
deriving DecidableEq, Repr

/-- The remote calls the face-match step can make, modelled by the value the
provider returns, or the error the call throws, at each site.
`resolveAdditional i = .ok none` models `resolveImageSource` returning `null`
for supplemental frame `i` (the frame is skipped); `.error` models a thrown
normalization error, which is not caught in this block.  `compareAdditional i`
is the score of the detect-face-then-compare-faces pair for frame `i` (either
call throwing is the `.error` case). -/
structure FaceMatchOracle where
  inspectCustomer : Except JsError CustomerInspection
  detectFaceDocId : Except JsError (Option String)
  faceTemplateData : Except JsError (Option String)
  comparePrimary : Except JsError ℚ
  resolveAdditional : Nat → Except JsError (Option Unit)
  compareAdditional : Nat → Except JsError ℚ

/-- The loop over `selfieImagesFromBody` (kycController.ts lines 529-571):
frame `i` is skipped when its image resolves to `null`, aborts the step when a
call throws, and otherwise contributes its comparison score in order. -/
def collectAdditionalScores (or : FaceMatchOracle) : Nat → Nat → Except JsError (List ℚ)
  | _, 0 => .ok []
  | i, n + 1 =>
    match or.resolveAdditional i with
    | .error e => .error e
    | .ok none => collectAdditionalScores or (i + 1) n
    | .ok (some _) =>
      match or.compareAdditional i with
      | .error e => .error e
      | .ok s =>
        match collectAdditionalScores or (i + 1) n with
        | .error e => .error e
        | .ok rest => .ok (s :: rest)

/-- `Math.max(...faceMatchScores)` on the non-empty list `s :: rest`. -/
def bestOf (s : ℚ) (rest : List ℚ) : ℚ := rest.foldl max s

/-- The pre-computed face-match score the controller reads from the customer
inspection (kycController.ts lines 440-476): `none` when the call threw, the
`documentPortraitComparison` block is missing, or its `score` is not a number. -/
def inspectionScoreOf (or : FaceMatchOracle) : Option ℚ :=
  match or.inspectCustomer with
  | .ok v => v.documentPortraitComparison.bind (·.score)
  | .error _ => none

/-- Whether the customer inspection lacks a numeric pre-computed face-match
score (the fallback-triggering condition). -/
def inspectionLacksScore (or : FaceMatchOracle) : Bool :=
  (inspectionScoreOf or).isNone

/-- Model of the face-match resolution step (kycController.ts lines 435-604),
for a request carrying `n` supplemental selfie entries.  When the inspection
yields a numeric score it is used directly (`strategy = inspection`).
Otherwise the manual path detects a face in the document front image (aborting
when no face id comes back), fetches its template (aborting when the template
has no data), compares the primary selfie's face against it, compares each
successfully resolved supplemental frame against it, guards against an empty
score list, and takes `Math.max` of all collected scores. -/
def faceMatchStep (or : FaceMatchOracle) (n : Nat) : Except JsError FaceMatchOutcome :=
  match inspectionScoreOf or with
  | some s => .ok { score := s, strategy := .inspection, allScores := [s] }
  | none =>
    match or.detectFaceDocId with
    | .error e => .error e
    | .ok none =>
      .error ⟨none, "Failed to detect a face in the document image during manual comparison"⟩
    | .ok (some _) =>
      match or.faceTemplateData with
      | .error e => .error e
      | .ok none =>
        .error ⟨none, "Document face template is missing data for manual comparison"⟩
      | .ok (some _) =>
        match or.comparePrimary with
        | .error e => .error e
        | .ok p =>
          match collectAdditionalScores or 0 n with
          | .error e => .error e
          | .ok rest =>
            if p :: rest = [] then
              .error ⟨none, "Manual face comparison failed to produce any scores"⟩
            else
              .ok { score := bestOf p rest, strategy := .manual, allScores := p :: rest }

theorem bestOf_mem (s : ℚ) (l : List ℚ) : bestOf s l ∈ s :: l := by
  induction l generalizing s with
  | nil => simp [bestOf]
  | cons x xs ih =>
    have h := List.mem_cons.mp (ih (max s x))
    have hfold : bestOf s (x :: xs) = bestOf (max s x) xs := rfl
    rw [hfold]
    rcases h with h | h
    · rw [h]
      rcases max_choice s x with hc | hc <;> rw [hc] <;> simp
    · exact List.mem_cons_of_mem _ (List.mem_cons_of_mem _ h)

theorem foldl_max_init_le (s : ℚ) (l : List ℚ) : s ≤ l.foldl max s := by
  induction l generalizing s with
  | nil => exact le_refl s
  | cons y ys ih => exact le_trans (le_max_left s y) (ih (max s y))

theorem le_bestOf (s : ℚ) (l : List ℚ) : ∀ x ∈ s :: l, x ≤ bestOf s l := by
  induction l generalizing s with
  | nil =>
    intro x hx
    rw [List.mem_singleton] at hx
    subst hx
    exact le_refl x
  | cons y ys ih =>
    intro x hx
    have hstep : max s y ≤ bestOf (max s y) ys := foldl_max_init_le (max s y) ys
    have hgoal : bestOf s (y :: ys) = bestOf (max s y) ys := rfl
    rw [hgoal]
    simp only [List.mem_cons] at hx
    rcases hx with hx | hx | hx
    · subst hx
      exact le_trans (le_max_left x y) hstep
    · subst hx
      exact le_trans (le_max_right s x) hstep
    · exact ih (max s y) x (List.mem_cons_of_mem _ hx)

/-- C2 (confirmed): whenever the identity inspection lacks a numeric face-match
score (absent field, structurally missing block, or the call threw) and the step
completes, it completed through the manual strategy; its score list is the
primary selfie's comparison followed by the comparisons of the successfully
resolved supplemental frames; that list is non-empty (so the empty-list failure
guard did not fire), and the final score is its maximum. -/
theorem faceMatch_manual_fallback_spec (or : FaceMatchOracle) (n : Nat)
    (o : FaceMatchOutcome) (hlack : inspectionLacksScore or = true)
    (h : faceMatchStep or n = .ok o) :
    o.strategy = .manual ∧
    o.allScores ≠ [] ∧
    o.score ∈ o.allScores ∧
    (∀ x ∈ o.allScores, x ≤ o.score) ∧
    ∃ p rest, or.comparePrimary = .ok p ∧ collectAdditionalScores or 0 n = .ok rest ∧
      o.allScores = p :: rest ∧ o.score = bestOf p rest := by
  have hnone : inspectionScoreOf or = none := by
    unfold inspectionLacksScore at hlack
    simpa [Option.isNone_iff_eq_none] using hlack
  unfold faceMatchStep at h
  rw [hnone] at h
  cases hdoc : or.detectFaceDocId with
  | error e => rw [hdoc] at h; simp at h
  | ok docId =>
    rw [hdoc] at h
    cases docId with
    | none => simp at h
    | some fid =>
      cases htmpl : or.faceTemplateData with
      | error e => rw [htmpl] at h; simp at h
      | ok td =>
        rw [htmpl] at h
        cases td with
        | none => simp at h
        | some t =>
          cases hp : or.comparePrimary with
          | error e => rw [hp] at h; simp at h
          | ok p =>
            rw [hp] at h
            cases hr : collectAdditionalScores or 0 n with
            | error e => rw [hr] at h; simp at h
            | ok rest =>
              rw [hr] at h
              dsimp only at h
              rw [if_neg (List.cons_ne_nil p rest)] at h
              simp only [Except.ok.injEq] at h
              subst h
              exact ⟨rfl, by simp, bestOf_mem p rest, le_bestOf p rest,
                p, rest, rfl, rfl, rfl, rfl⟩

/-- A concrete oracle for the C2 witness: the inspection call succeeds but
carries no `documentPortraitComparison.score`; the primary comparison yields
0.5 and the two supplemental frames 0.8 and 0.6. -/
def manualFallbackOracle : FaceMatchOracle where
  inspectCustomer := .ok {}
  detectFaceDocId := .ok (some "docFace")
  faceTemplateData := .ok (some "tmpl")
  comparePrimary := .ok (mkRat 1 2)
  resolveAdditional := fun _ => .ok (some ())
  compareAdditional := fun i => if i = 0 then .ok (mkRat 4 5) else .ok (mkRat 3 5)

/-- The outcome `faceMatchStep` produces on `manualFallbackOracle`: manual
strategy, scores [0.5, 0.8, 0.6], final score the maximum 0.8. -/
def manualFallbackOutcome : FaceMatchOutcome where
  score := mkRat 4 5
  strategy := .manual
  allScores := [mkRat 1 2, mkRat 4 5, mkRat 3 5]

/-- C2 witness: the fallback theorem applied to the concrete oracle with manual
scores [0.5, 0.8, 0.6]; the strategy is manual and the final score 0.8 is the
maximum of the collected list. -/
theorem faceMatch_manual_fallback_spec_witness :
    manualFallbackOutcome.strategy = .manual ∧
    manualFallbackOutcome.score ∈ manualFallbackOutcome.allScores ∧
    ∀ x ∈ manualFallbackOutcome.allScores, x ≤ manualFallbackOutcome.score :=
  ⟨(faceMatch_manual_fallback_spec manualFallbackOracle 2 manualFallbackOutcome
      (by decide) (by decide)).1,
   (faceMatch_manual_fallback_spec manualFallbackOracle 2 manualFallbackOutcome
      (by decide) (by decide)).2.2.1,
   (faceMatch_manual_fallback_spec manualFallbackOracle 2 manualFallbackOutcome
      (by decide) (by decide)).2.2.2.1⟩

/-! ## Workflow module (src/workflows/innovatricsOrchestrationModule.ts) -/

namespace Workflow

/-- The `string[] | string | undefined` union of
`VerificationInput.identificationDocumentImage` / `selfieImages`. -/
inductive StrOrArr
  | str (s : String)
  | arr (xs : List String)
  | undef
deriving DecidableEq, Repr

/-- `VerificationInput` (module lines 22-30).  `image = none` models a
non-string value (`typeof input.image === 'string'` fails). -/
structure VerificationInput where
  identificationDocumentImage : StrOrArr := .undef
  image : Option String := none
  selfieImages : StrOrArr := .undef
  documentType : Option String := none
  firstNationality : Option String := none
  userId : Option String := none
deriving DecidableEq, Repr

/-- `toArray` (module lines 675-686): a falsy value gives `[]`; an array is
filtered to its entries with non-empty trim; a string with non-empty trim gives
a singleton. -/
def toArray : StrOrArr → List String
  | .undef => []
  | .arr xs => xs.filter (fun s => jsTrim s != "")
  | .str s => if jsTrim s = "" then [] else [s]

/-- The `primarySelfieInput` local of `run` (line 152). -/
def primarySelfieOf (input : VerificationInput) : String :=
  match input.image with
  | some s => jsTrim s
  | none => ""

/-- `...(x ? { x } : {})` / `if (x)`: a JS string is kept iff truthy. -/
def jsTruthyOpt : Option String → Option String
  | some s => if s = "" then none else some s
  | none => none

/-- Opaque payload of `verifyDocument`; `run` stores it verbatim, so its inner
structure is irrelevant to the claims settled on `run`. -/
structure DocumentVerificationData where
  payload : String := ""
deriving DecidableEq, Repr

/-- The face-detection payload stored into `verification.faceDetection`. -/
structure FaceDetectionData where
  id : String := ""
  detectionScore : ℚ := 0
deriving DecidableEq, Repr

/-- The `checkFaceMask` payload. -/
structure MaskData where
  score : ℚ := 0
deriving DecidableEq, Repr

/-- The `evaluatePassiveLiveness` result (module lines 76-81). -/
structure LivenessData where
  confidence : ℚ := 0
  status : String := "not_live"
  isDeepfake : Option Bool := none
  deepfakeConfidence : Option ℚ := none
deriving DecidableEq, Repr

/-- The `/customers/{id}/inspect` response as `run` reads it:
`inspection?.faceMatch?.score` collapsed to an optional number. -/
structure InspectionData where
  faceMatchScore : Option ℚ := none
deriving DecidableEq, Repr

/-- `VerificationFlowResult` (module lines 83-99); `Date`s are millisecond
timestamps.  The `faceDetection` object `{ id, detection, maskResult }` is
split into the `faceDetection` and `maskResult` fields. -/
structure VerificationFlowResult where
  customerId : String
  externalId : String
  userId : Option String := none
  overallStatus : OverallStatus
  createdAt : Int
  updatedAt : Int
  documentVerification : Option DocumentVerificationData := none
  selfieUploadId : Option String := none
  faceDetection : Option FaceDetectionData := none
  maskResult : Option MaskData := none
  faceComparisonScore : Option ℚ := none
  livenessCheck : Option LivenessData := none
deriving DecidableEq, Repr

/-- `SerializedVerificationResult` (module lines 101-104): the same record with
the two `Date` fields rendered as optional strings. -/
structure SerializedVerificationResult where
  customerId : String
  externalId : String
  userId : Option String
  overallStatus : OverallStatus
  createdAt : Option String
  updatedAt : Option String
  documentVerification : Option DocumentVerificationData
  selfieUploadId : Option String
  faceDetection : Option FaceDetectionData
  maskResult : Option MaskData
  faceComparisonScore : Option ℚ
  livenessCheck : Option LivenessData
deriving DecidableEq, Repr

/-- Model of `serializeResult` (module lines 693-705), parameterized by the ISO
renderer `iso` standing for `Date.prototype.toISOString`: `undefined` passes
through, otherwise the record is spread with `createdAt`/`updatedAt` rendered
(`result.createdAt?.toISOString()`, always present here since the fields are
non-optional `Date`s). -/
def serializeResult (iso : Int → String) :
    Option VerificationFlowResult → Option SerializedVerificationResult
  | none => none
  | some r => some
    { customerId := r.customerId
      externalId := r.externalId
      userId := r.userId
      overallStatus := r.overallStatus
      createdAt := some (iso r.createdAt)
      updatedAt := some (iso r.updatedAt)
      documentVerification := r.documentVerification
      selfieUploadId := r.selfieUploadId
      faceDetection := r.faceDetection
      maskResult := r.maskResult
      faceComparisonScore := r.faceComparisonScore
      livenessCheck := r.livenessCheck }

/-- The `content` of a workflow event: `''` for success events, the
`JSON.stringify({ message, details? })` payload for failure events. -/
inductive EventContent
  | empty
  | failurePayload (message : String) (details : Option SerializedVerificationResult)
deriving DecidableEq, Repr

/-- `WorkflowEvent` (module lines 8-13). -/
structure WorkflowEvent where
  kind : Nat
  created_at : Int
  tags : List (List String)
  content : EventContent
deriving DecidableEq, Repr

/-- `VerificationOutcome` (module lines 125-128). -/
structure VerificationOutcome where
  event : WorkflowEvent
  results : Option SerializedVerificationResult := none
deriving DecidableEq, Repr

/-- `createSuccessEvent` (module lines 621-643). -/
def createSuccessEvent (nowSec : Int) (customerId : String)
    (userIdentifier relayUrl : Option String) : WorkflowEvent :=
  let baseTags := [["e", customerId, "kyc_verification"]]
  let tags :=
    match jsTruthyOpt userIdentifier with
    | some uid =>
      baseTags ++
        [["p", uid] ++
          (match jsTruthyOpt relayUrl with | some r => [r] | none => []) ++ ["user"]]
    | none => baseTags
  { kind := 3, created_at := nowSec, tags := tags, content := .empty }

/-- `createFailureEvent` (module lines 645-672); `customerId ?? 'unknown'` for
the e-tag, a p-tag only for a truthy user identifier, kind 1984. -/
def createFailureEvent (nowSec : Int) (customerId userIdentifier : Option String)
    (reason message : String) (details : Option SerializedVerificationResult) :
    WorkflowEvent :=
  let baseTags := [["e", customerId.getD "unknown", reason]]
  let tags :=
    match jsTruthyOpt userIdentifier with
    | some uid => baseTags ++ [["p", uid, "user"]]
    | none => baseTags
  { kind := 1984, created_at := nowSec, tags := tags,
    content := .failurePayload message details }

/-- The remote provider operations `run` can invoke, for call counting.
(`verifyDocument` and `evaluatePassiveLiveness` group their internal provider
round-trips.) -/
inductive ProviderCall
  | createCustomer
  | storeCustomerInProgress
  | verifyDocument
  | uploadSelfie
  | detectFace
  | checkFaceMask
  | inspectCustomer
  | evaluateLiveness
  | storeCustomerFinished
deriving DecidableEq, Repr

/-- Environment of one `run`: the clock, the relay configuration, the local
sharp pipeline, and the provider's response (or thrown error) at each call
site. -/
structure RunEnv where
  nowMs : Int := 0
  nowSec : Int := 0
  relayUrl : Option String := none
  iso : Int → String := fun t => toString t
  sharpProcess : String → Except JsError String := fun s => .ok s
  createCustomer : Except JsError String := .ok "customer"
  storeCustomerInProgress : Except JsError Unit := .ok ()
  verifyDocument : Except JsError DocumentVerificationData := .ok {}
  uploadSelfie : Except JsError String := .ok "selfie"
  detectFace : Except JsError FaceDetectionData := .ok {}
  checkFaceMask : Except JsError MaskData := .ok {}
  inspectCustomer : Except JsError InspectionData := .ok {}
  evaluateLiveness : Except JsError LivenessData := .ok {}
  storeCustomerFinished : Except JsError Unit := .ok ()

/-- Model of the module-level `resolveImageSource` (lines 707-763): normalize
the payload (throwing on empty/non-string), reject an empty base64, then run
the sharp metadata/resize/re-encode pipeline (`sharpProcess`), which may throw
on undecodable bytes; returns the resolved base64. -/
def resolveImageSource (sharpProcess : String → Except JsError String)
    (raw : String) : Except JsError String :=
  match normalizeImagePayload (some raw) with
  | .error e => .error ⟨none, e⟩
  | .ok ni =>
    if ni.base64 = "" then .error ⟨none, "Image payload is empty"⟩
    else sharpProcess ni.base64

/-- The catch block of `run` (module lines 267-291): mark the in-flight result
(if any) failed with a fresh `updatedAt`, serialize it, and emit a
`verification_failed` event carrying the error message (with fallback), the
customer id when truthy, the user tag resolved as `result?.userId ??
externalId` when truthy, and the serialized details when present. -/
def failWith (env : RunEnv) (e : JsError) (customerId : Option String)
    (externalId : Option String) (vr : Option VerificationFlowResult)
    (trace : List ProviderCall) : VerificationOutcome × List ProviderCall :=
  let vr2 := vr.map (fun v => { v with overallStatus := .failed, updatedAt := env.nowMs })
  let serialized := serializeResult env.iso vr2
  let message := if e.msg = "" then "Verification failed" else e.msg
  let resolvedUserTag : Option String :=
    match vr2.bind (·.userId) with
    | some u => some u
    | none => externalId
  let ev := createFailureEvent env.nowSec (jsTruthyOpt customerId) resolvedUserTag
    "verification_failed" message serialized
  ({ event := ev, results := serialized }, trace)

/-- The try block of `run` (module lines 169-266): resolve the images, create
and link the customer, then drive document verification, selfie upload, face
detection, mask check, inspection, liveness, completion, and the final
re-link, failing over to `failWith` at the first thrown error with the state
accumulated so far.  The second component is the trace of provider calls. -/
def runTry (env : RunEnv) (documentImages additionalSelfiesInput : List String)
    (primarySelfieInput : String) (userIdentifier : Option String) :
    VerificationOutcome × List ProviderCall :=
  match resolveImageSource env.sharpProcess (documentImages.headD "") with
  | .error e => failWith env e none userIdentifier none []
  | .ok _documentFront =>
    match (match (documentImages.drop 1).head? with
           | some b => (resolveImageSource env.sharpProcess b).map some
           | none => .ok none) with
    | .error e => failWith env e none userIdentifier none []
    | .ok _documentBack =>
      match resolveImageSource env.sharpProcess primarySelfieInput with
      | .error e => failWith env e none userIdentifier none []
      | .ok _primarySelfie =>
        let _supplementalSelfies :=
          additionalSelfiesInput.filterMap
            (fun s => (resolveImageSource env.sharpProcess s).toOption)
        match env.createCustomer with
        | .error e => failWith env e none userIdentifier none [.createCustomer]
        | .ok customerId =>
          let externalId :=
            match jsTruthyOpt userIdentifier with
            | some s => s
            | none => "external_" ++ toString env.nowMs
          match env.storeCustomerInProgress with
          | .error e => failWith env e (some customerId) (some externalId) none
              [.createCustomer, .storeCustomerInProgress]
          | .ok _ =>
            let verification : VerificationFlowResult :=
              { customerId := customerId
                externalId := externalId
                userId := jsTruthyOpt userIdentifier
                overallStatus := .pending
                createdAt := env.nowMs
                updatedAt := env.nowMs }
            match env.verifyDocument with
            | .error e => failWith env e (some customerId) (some externalId)
                (some verification)
                [.createCustomer, .storeCustomerInProgress, .verifyDocument]
            | .ok docData =>
              let v1 := { verification with documentVerification := some docData }
              match env.uploadSelfie with
              | .error e => failWith env e (some customerId) (some externalId) (some v1)
                  [.createCustomer, .storeCustomerInProgress, .verifyDocument,
                   .uploadSelfie]
              | .ok selfieId =>
                let v2 := { v1 with selfieUploadId := some selfieId }
                match env.detectFace with
                | .error e => failWith env e (some customerId) (some externalId) (some v2)
                    [.createCustomer, .storeCustomerInProgress, .verifyDocument,
                     .uploadSelfie, .detectFace]
                | .ok faceData =>
                  match env.checkFaceMask with
                  | .error e => failWith env e (some customerId) (some externalId)
                      (some v2)
                      [.createCustomer, .storeCustomerInProgress, .verifyDocument,
                       .uploadSelfie, .detectFace, .checkFaceMask]
                  | .ok maskData =>
                    let v3 := { v2 with
                      faceDetection := some faceData
                      maskResult := some maskData }
                    match env.inspectCustomer with
                    | .error e => failWith env e (some customerId) (some externalId)
                        (some v3)
                        [.createCustomer, .storeCustomerInProgress, .verifyDocument,
                         .uploadSelfie, .detectFace, .checkFaceMask, .inspectCustomer]
                    | .ok insp =>
                      let v4 := { v3 with
                        faceComparisonScore := some (insp.faceMatchScore.getD 0) }
                      match env.evaluateLiveness with
                      | .error e => failWith env e (some customerId) (some externalId)
                          (some v4)
                          [.createCustomer, .storeCustomerInProgress, .verifyDocument,
                           .uploadSelfie, .detectFace, .checkFaceMask, .inspectCustomer,
                           .evaluateLiveness]
                      | .ok liveData =>
                        let v5 := { v4 with livenessCheck := some liveData }
                        let v6 := { v5 with
                          overallStatus := OverallStatus.completed
                          updatedAt := env.nowMs }
                        match env.storeCustomerFinished with
                        | .error e => failWith env e (some customerId) (some externalId)
                            (some v6)
                            [.createCustomer, .storeCustomerInProgress, .verifyDocument,
                             .uploadSelfie, .detectFace, .checkFaceMask,
                             .inspectCustomer, .evaluateLiveness, .storeCustomerFinished]
                        | .ok _ =>
                          match serializeResult env.iso (some v6) with
                          | none =>
                            failWith env ⟨none, "Failed to serialize verification results"⟩
                              (some customerId) (some externalId) (some v6)
                              [.createCustomer, .storeCustomerInProgress, .verifyDocument,
                               .uploadSelfie, .detectFace, .checkFaceMask,
                               .inspectCustomer, .evaluateLiveness, .storeCustomerFinished]
                          | some serialized =>
                            let resolvedUserTag :=
                              match v6.userId with
                              | some u => some u
                              | none => some v6.externalId
                            ({ event := createSuccessEvent env.nowSec customerId
                                  resolvedUserTag env.relayUrl
                               results := some serialized },
                             [.createCustomer, .storeCustomerInProgress, .verifyDocument,
                              .uploadSelfie, .detectFace, .checkFaceMask,
                              .inspectCustomer, .evaluateLiveness, .storeCustomerFinished])

/-- Model of `InnovatricsEventWorkflow.run` (module lines 149-292).  Total by
construction: every execution — validation failure, decline, internal throw —
returns exactly one `VerificationOutcome` containing exactly one event,
together with the trace of provider calls made. -/
def run (env : RunEnv) (input : VerificationInput) :
    VerificationOutcome × List ProviderCall :=
  let documentImages := toArray input.identificationDocumentImage
  let additionalSelfiesInput := toArray input.selfieImages
  let primarySelfieInput := primarySelfieOf input
  let userIdentifier := input.userId.map jsTrim
  if documentImages.head? = none ∨ primarySelfieInput = "" then
    ({ event := createFailureEvent env.nowSec none userIdentifier "missing_input"
         "Document front image and primary selfie are required" none }, [])
  else
    runTry env documentImages additionalSelfiesInput primarySelfieInput userIdentifier

/-- C9 (confirmed): `serializeResult` is total (a Lean function; every branch
returns), maps `undefined` to `undefined` and nothing else to `undefined`,
renders the two `Date` fields through the ISO renderer, and passes every other
field through unchanged. -/
theorem serializeResult_total_frame (iso : Int → String)
    (x : Option VerificationFlowResult) :
    (serializeResult iso x = none ↔ x = none) ∧
    (∀ r s, x = some r → serializeResult iso x = some s →
      s.createdAt = some (iso r.createdAt) ∧
      s.updatedAt = some (iso r.updatedAt) ∧
      s.customerId = r.customerId ∧
      s.externalId = r.externalId ∧
      s.userId = r.userId ∧
      s.overallStatus = r.overallStatus ∧
      s.documentVerification = r.documentVerification ∧
      s.selfieUploadId = r.selfieUploadId ∧
      s.faceDetection = r.faceDetection ∧
      s.maskResult = r.maskResult ∧
      s.faceComparisonScore = r.faceComparisonScore ∧
      s.livenessCheck = r.livenessCheck) := by
  constructor
  · cases x <;> simp [serializeResult]
  · rintro r s rfl hs
    simp only [serializeResult, Option.some.injEq] at hs
    subst hs
    exact ⟨rfl, rfl, rfl, rfl, rfl, rfl, rfl, rfl, rfl, rfl, rfl, rfl⟩

/-- A concrete flow result for the C9 witness. -/
def sampleFlowResult : VerificationFlowResult where
  customerId := "c"
  externalId := "e"
  overallStatus := OverallStatus.completed
  createdAt := 5
  updatedAt := 6

/-- The serialization of `sampleFlowResult` under the constant renderer. -/
def sampleSerialized : SerializedVerificationResult where
  customerId := "c"
  externalId := "e"
  userId := none
  overallStatus := OverallStatus.completed
  createdAt := some "T"
  updatedAt := some "T"
  documentVerification := none
  selfieUploadId := none
  faceDetection := none
  maskResult := none
  faceComparisonScore := none
  livenessCheck := none

/-- C9 witness: the frame theorem applied at a concrete result and renderer. -/
theorem serializeResult_total_frame_witness :
    sampleSerialized.createdAt = some "T" ∧
    sampleSerialized.overallStatus = sampleFlowResult.overallStatus :=
  have h := (serializeResult_total_frame (fun _ => "T") (some sampleFlowResult)).2
    sampleFlowResult sampleSerialized rfl rfl
  ⟨h.1, h.2.2.2.2.2.1⟩

theorem failWith_results_failed (env : RunEnv) (e : JsError) (cid ext : Option String)
    (vr : Option VerificationFlowResult) (tr : List ProviderCall)
    (r : SerializedVerificationResult)
    (h : (failWith env e cid ext vr tr).1.results = some r) :
    r.overallStatus = OverallStatus.failed := by
  cases vr with
  | none => simp [failWith, serializeResult] at h
  | some v =>
    simp only [failWith, serializeResult, Option.map_some', Option.some.injEq] at h
    rw [← h]

/-- C4 (confirmed): when the front document image is missing (after filtering)
or the primary selfie is missing/blank, `run` returns immediately: the provider
call trace is empty, no results object is attached, and the emitted event is a
kind-1984 failure whose e-tag reason is `missing_input`. -/
theorem missing_input_no_remote_calls (env : RunEnv) (input : VerificationInput)
    (h : toArray input.identificationDocumentImage = [] ∨ primarySelfieOf input = "") :
    (run env input).2 = [] ∧
    (run env input).1.results = none ∧
    (run env input).1.event.kind = 1984 ∧
    (run env input).1.event.tags.head? = some ["e", "unknown", "missing_input"] := by
  have hcond : (toArray input.identificationDocumentImage).head? = none ∨
      primarySelfieOf input = "" := by
    rcases h with h | h
    · exact Or.inl (by rw [h]; rfl)
    · exact Or.inr h
  simp only [run]
  rw [if_pos hcond]
  refine ⟨rfl, rfl, rfl, ?_⟩
  cases hj : jsTruthyOpt (input.userId.map jsTrim) <;>
    simp [createFailureEvent, hj]

/-- C4 witness: the empty input short-circuits with no provider calls. -/
theorem missing_input_no_remote_calls_witness :
    (run {} {}).2 = [] ∧ (run {} {}).1.results = none :=
  have h := missing_input_no_remote_calls {} {} (Or.inl rfl)
  ⟨h.1, h.2.1⟩

/-- C10 (confirmed): `run` is total by construction (every execution returns
exactly one outcome containing exactly one event; the model has no thrown
exception left uncaught), and whenever the returned outcome carries a results
object, its `overallStatus` is `completed` or `failed` — never the
intermediate `pending`/`in_progress`; the single event is kind 3 (success) or
kind 1984 (failure). -/
theorem run_terminal_status_invariant (env : RunEnv) (input : VerificationInput) :
    (∀ r, (run env input).1.results = some r →
        r.overallStatus = OverallStatus.completed ∨
          r.overallStatus = OverallStatus.failed) ∧
    ((run env input).1.event.kind = 3 ∨ (run env input).1.event.kind = 1984) := by
  constructor
  · intro r h
    simp only [run] at h
    split at h
    · simp at h
    · simp only [runTry, serializeResult] at h
      iterate 16 (all_goals (try split at h))
      all_goals
        first
          | exact Or.inr (failWith_results_failed _ _ _ _ _ _ _ h)
          | (simp only [Option.some.injEq] at h
             subst h
             exact Or.inl rfl)
  · simp only [run]
    split
    · exact Or.inr rfl
    · simp only [runTry, serializeResult]
      iterate 16 (all_goals (try split))
      all_goals
        first
          | exact Or.inl rfl
          | exact Or.inr rfl

/-- A run environment for the C10 witness with a constant ISO renderer. -/
def witnessEnv : RunEnv where
  iso := fun _ => "T"

/-- The input of the C10 witness: a front document image and a primary selfie. -/
def witnessInput : VerificationInput where
  identificationDocumentImage := StrOrArr.str "QUJD"
  image := some "QUJD"

/-- The serialized results of the all-success witness run. -/
def witnessSerialized : SerializedVerificationResult where
  customerId := "customer"
  externalId := "external_0"
  userId := none
  overallStatus := OverallStatus.completed
  createdAt := some "T"
  updatedAt := some "T"
  documentVerification := some {}
  selfieUploadId := some "selfie"
  faceDetection := some {}
  maskResult := some {}
  faceComparisonScore := some 0
  livenessCheck := some {}

/-- C10 witness: the invariant applied to a concrete all-success run. -/
theorem run_terminal_status_invariant_witness :
    witnessSerialized.overallStatus = OverallStatus.completed ∨
      witnessSerialized.overallStatus = OverallStatus.failed :=
  (run_terminal_status_invariant witnessEnv witnessInput).1 witnessSerialized (by decide)

end Workflow

end KYC
